import Mathlib

/-!
Shallow embedding of the SentinelLink backend incident lifecycle engine.

Sources embedded:
- incident service (`IncidentService`): create, list, status update, upvote;
- duplicate detector (`checkForDuplicate`) and the haversine distance utility;
- error middleware (`errorHandler`) for the Prisma error translation;
- upvote controller endpoint wiring.

Asynchronous persistence calls are modelled as explicit state passing over an
in-memory database value; fallible calls return `Except`.  Points where the
environment can fail (the media store, a concurrent vote insert racing the
transaction, a failing admin-note insert) are modelled as injected parameters,
since the failure itself originates outside the embedded code.  Floating-point
trigonometry (`Math.cos`, the haversine) crosses a module boundary in the
source (`distance.ts` imported by `duplicateDetector.ts`); the detector is
therefore parametrised by the distance predicate and by the value of
`cos(latitude in radians)`, and the distance formula itself is embedded
separately over the reals.
-/

namespace SentinelLink

/-- Severity enum (prisma `Severity`, schema values LOW | MEDIUM | HIGH). -/
inductive Severity
  | LOW
  | MEDIUM
  | HIGH
deriving DecidableEq

/-- Incident status enum (prisma `IncidentStatus`). -/
inductive IncidentStatus
  | REPORTED
  | VERIFIED
  | IN_PROGRESS
  | RESOLVED
  | FLAGGED
deriving DecidableEq

/-- String rendering of a status, used in admin-note text
(`Status changed to ...`). -/
def statusStr : IncidentStatus → String
  | .REPORTED => "REPORTED"
  | .VERIFIED => "VERIFIED"
  | .IN_PROGRESS => "IN_PROGRESS"
  | .RESOLVED => "RESOLVED"
  | .FLAGGED => "FLAGGED"

/-- ASCII uppercase of one character: the executable model of the case
mapping JS `toUpperCase` performs on the enum-like strings this backend
stores (they are ASCII-only). -/
def asciiUpper (c : Char) : Char :=
  if 97 ≤ c.toNat ∧ c.toNat ≤ 122 then Char.ofNat (c.toNat - 32) else c

/-- ASCII lowercase of one character. -/
def asciiLower (c : Char) : Char :=
  if 65 ≤ c.toNat ∧ c.toNat ≤ 90 then Char.ofNat (c.toNat + 32) else c

/-- `s.toUpperCase()` on ASCII strings. -/
def strUpper (s : String) : String := ⟨s.data.map asciiUpper⟩

/-- `s.toLowerCase()` on ASCII strings (the executable model of the
case-insensitive comparison `mode: 'insensitive'`). -/
def strLower (s : String) : String := ⟨s.data.map asciiLower⟩

/-- The `Incident` row.  Coordinates are rationals (the embedding of the
numeric columns), timestamps are integers in milliseconds (JS `Date.now()`). -/
structure Incident where
  id : String
  incidentType : String
  description : String
  latitude : ℚ
  longitude : ℚ
  severity : Severity
  status : IncidentStatus
  upvoteCount : Nat
  mediaUrl : Option String
  createdAt : ℤ
  updatedAt : ℤ
deriving DecidableEq

/-- The `Vote` row: at most one per (userId, incidentId), enforced by the
database's compound unique constraint. -/
structure Vote where
  userId : String
  incidentId : String
  createdAt : ℤ
deriving DecidableEq

/-- The `AdminNote` row. -/
structure AdminNote where
  incidentId : String
  userId : String
  note : String
  createdAt : ℤ
deriving DecidableEq

/-- Database state: the three tables the embedded operations touch. -/
structure DB where
  incidents : List Incident
  votes : List Vote
  adminNotes : List AdminNote
deriving DecidableEq

/-- Real-time events emitted through the socket service
(`emitNewIncident`, `emitIncidentUpdate`, `emitBroadcast`). -/
inductive Event
  | newIncident (i : Incident)
  | incidentUpdate (i : Incident)
  | broadcast (msg : String)
deriving DecidableEq

/-- Process state: database plus the socket-service singleton.  `socketOn`
models `getSocketService()` returning a live service (the code guards every
emission with a null check); `events` is the ordered log of emissions. -/
structure St where
  db : DB
  socketOn : Bool
  events : List Event
deriving DecidableEq

/-- `socketService.emit...` guarded by `if (socketService)`. -/
def emit (st : St) (e : Event) : St :=
  if st.socketOn then { st with events := st.events ++ [e] } else st

/-- The configuration surface used by the embedded operations
(env.ts defaults: threshold 5, 200 meters, 10 minutes). -/
structure Env where
  VERIFICATION_THRESHOLD : Nat
  DUPLICATE_DISTANCE_METERS : ℚ
  DUPLICATE_TIME_MINUTES : ℤ
deriving DecidableEq

/-- The defaults declared in the env schema. -/
def defaultEnv : Env :=
  { VERIFICATION_THRESHOLD := 5
    DUPLICATE_DISTANCE_METERS := 200
    DUPLICATE_TIME_MINUTES := 10 }

/-- Errors surfaced by the embedded operations.  `prismaP2002` is the
persistence layer's uniqueness violation (carrying the constraint's target
columns), `prismaP2025` its record-not-found error; `cloudinaryErr` is a
media-store failure. -/
inductive Err
  | prismaP2002 (target : List String)
  | prismaP2025
  | cloudinaryErr (msg : String)
  | dbFailure (msg : String)
deriving DecidableEq

/-- `prisma.incident.update({where: {id}})`: rewrite the first row with the
given id through `f` and also return the updated row; `none` when no row
matches (prisma throws P2025 there). -/
def prismaUpdate (l : List Incident) (id : String) (f : Incident → Incident) :
    Option (Incident × List Incident) :=
  match l with
  | [] => none
  | i :: rest =>
    if i.id = id then some (f i, f i :: rest)
    else
      match prismaUpdate rest id f with
      | none => none
      | some (r, rest') => some (r, i :: rest')

/-- `prisma.incident.findUnique({where: {id}})`. -/
def findIncident (db : DB) (id : String) : Option Incident :=
  db.incidents.find? (fun i => i.id = id)

/-- Insert into a list kept in descending key order (helper for the embedding
of `orderBy ... desc`). -/
def insertDescBy (key : Incident → ℤ) (a : Incident) : List Incident → List Incident
  | [] => [a]
  | b :: rest => if key b < key a then a :: b :: rest else b :: insertDescBy key a rest

/-- Stable insertion sort, descending by the given key:
the embedding of `orderBy: {k: 'desc'}`. -/
def sortDescBy (key : Incident → ℤ) : List Incident → List Incident
  | [] => []
  | a :: rest => insertDescBy key a (sortDescBy key rest)

/-- Insert into a list kept in ascending key order. -/
def insertAscBy (key : Incident → ℤ) (a : Incident) : List Incident → List Incident
  | [] => [a]
  | b :: rest => if key a < key b then a :: b :: rest else b :: insertAscBy key a rest

/-- Stable insertion sort, ascending by the given key:
the embedding of `orderBy: {k: 'asc'}`. -/
def sortAscBy (key : Incident → ℤ) : List Incident → List Incident
  | [] => []
  | a :: rest => insertAscBy key a (sortAscBy key rest)

/-- `DuplicateCheckResult` from duplicateDetector.ts. -/
structure DupResult where
  isDuplicate : Bool
  duplicateOf : Option String
  reason : Option String
deriving DecidableEq

/-- The human-readable reason string built by the detector. -/
def dupReason (env : Env) : String :=
  "Similar incident reported within " ++ toString env.DUPLICATE_DISTANCE_METERS ++
    "m and " ++ toString env.DUPLICATE_TIME_MINUTES ++ " minutes"

/-- The `for (const incident of recentIncidents)` loop of `checkForDuplicate`:
return on the first candidate passing the precise distance check.  `near`
is the imported `isWithinDistance(lat1, lon1, lat2, lon2, maxDistanceMeters)`
predicate, passed as a parameter at the module boundary. -/
def dupScanLoop (near : ℚ → ℚ → ℚ → ℚ → ℚ → Bool) (env : Env) (lat lon : ℚ) :
    List Incident → DupResult
  | [] => { isDuplicate := false, duplicateOf := none, reason := none }
  | i :: rest =>
    if near lat lon i.latitude i.longitude env.DUPLICATE_DISTANCE_METERS then
      { isDuplicate := true, duplicateOf := some i.id, reason := some (dupReason env) }
    else dupScanLoop near env lat lon rest

/-- The `where` clause of the detector's prisma query: same type
(case-insensitive), created inside the time window, coordinates inside the
bounding box, status not RESOLVED and not FLAGGED. -/
def dupFilter (incidentType : String) (latitude longitude : ℚ)
    (timeWindowStart : ℤ) (latDelta lonDelta : ℚ) (i : Incident) : Bool :=
  decide (strLower i.incidentType = strLower incidentType) &&
  decide (timeWindowStart ≤ i.createdAt) &&
  decide (latitude - latDelta ≤ i.latitude) &&
  decide (i.latitude ≤ latitude + latDelta) &&
  decide (longitude - lonDelta ≤ i.longitude) &&
  decide (i.longitude ≤ longitude + lonDelta) &&
  decide (i.status ≠ .RESOLVED) && decide (i.status ≠ .FLAGGED)

/-- `checkForDuplicate(incidentType, latitude, longitude)` from
duplicateDetector.ts.  `cosLatRad` is the value of
`Math.cos((latitude * Math.PI) / 180)` (floating-point trigonometry at the
boundary), `now` is `Date.now()` in milliseconds, and the database rows
are the `db` parameter.  The prisma query is embedded as
filter + sort-descending-by-createdAt + take 20. -/
def checkForDuplicate (near : ℚ → ℚ → ℚ → ℚ → ℚ → Bool) (cosLatRad : ℚ)
    (env : Env) (db : DB) (incidentType : String) (latitude longitude : ℚ)
    (now : ℤ) : DupResult :=
  let timeWindowStart : ℤ := now - env.DUPLICATE_TIME_MINUTES * 60 * 1000
  let latDelta : ℚ := env.DUPLICATE_DISTANCE_METERS / 111000
  let lonDelta : ℚ := latDelta / cosLatRad
  let recentIncidents :=
    (sortDescBy (fun i => i.createdAt)
      (db.incidents.filter
        (dupFilter incidentType latitude longitude timeWindowStart latDelta lonDelta))).take 20
  dupScanLoop near env latitude longitude recentIncidents

/-- Duplicate detection as the spec words it: compute the window and the
bounding box, take the up-to-20 most recent same-type candidates inside the
box and window (excluding RESOLVED and FLAGGED), and return the FIRST
candidate in descending recency order that is within the configured max
distance; report no duplicate when no candidate matches.  Stated separately
from `checkForDuplicate` so the two can be proved equal. -/
def checkForDuplicateSpec (near : ℚ → ℚ → ℚ → ℚ → ℚ → Bool) (cosLatRad : ℚ)
    (env : Env) (db : DB) (incidentType : String) (latitude longitude : ℚ)
    (now : ℤ) : DupResult :=
  let windowStart : ℤ := now - env.DUPLICATE_TIME_MINUTES * 60 * 1000
  let latDelta : ℚ := env.DUPLICATE_DISTANCE_METERS / 111000
  let lonDelta : ℚ := latDelta / cosLatRad
  let candidates :=
    (sortDescBy (fun i => i.createdAt) (db.incidents.filter (fun i =>
      decide (strLower i.incidentType = strLower incidentType) &&
      decide (windowStart ≤ i.createdAt) &&
      decide (latitude - latDelta ≤ i.latitude) &&
      decide (i.latitude ≤ latitude + latDelta) &&
      decide (longitude - lonDelta ≤ i.longitude) &&
      decide (i.longitude ≤ longitude + lonDelta) &&
      decide (i.status ≠ .RESOLVED) && decide (i.status ≠ .FLAGGED)))).take 20
  match candidates.find? (fun i =>
      near latitude longitude i.latitude i.longitude env.DUPLICATE_DISTANCE_METERS) with
  | some i =>
    { isDuplicate := true, duplicateOf := some i.id, reason := some (dupReason env) }
  | none => { isDuplicate := false, duplicateOf := none, reason := none }

/-- `CreateIncidentInput` after zod validation (severity already defaulted). -/
structure CreateIncidentInput where
  incidentType : String
  description : String
  latitude : ℚ
  longitude : ℚ
  severity : Severity
deriving DecidableEq

/-- The zod `severity` field: `.default('MEDIUM')` when absent. -/
def parseSeverity (o : Option Severity) : Severity := o.getD .MEDIUM

/-- The duplicate marker prepended to a flagged incident's description. -/
def dupMarker : String := "[POTENTIAL DUPLICATE] "

/-- `IncidentService.createIncident(data, mediaBuffer)`.
`mediaUpload` models the optional media buffer together with the outcome of
`uploadToCloudinary` (an external call): `none` = no media supplied,
`some (.ok url)` = upload succeeded with `secure_url = url`,
`some (.error e)` = the provider reported error `e` (the helper rejects with
`Cloudinary upload failed: ...`, which aborts creation before anything is
persisted).  `newId` is the generated uuid, `now` is the creation time. -/
def createIncident (near : ℚ → ℚ → ℚ → ℚ → ℚ → Bool) (cosLatRad : ℚ)
    (env : Env) (data : CreateIncidentInput)
    (mediaUpload : Option (Except String String)) (newId : String) (now : ℤ)
    (st : St) : Except Err Incident × St :=
  match mediaUpload with
  | some (.error e) => (.error (.cloudinaryErr ("Cloudinary upload failed: " ++ e)), st)
  | _ =>
    let mediaUrl : Option String :=
      match mediaUpload with
      | some (.ok url) => some url
      | _ => none
    let duplicateCheck :=
      checkForDuplicate near cosLatRad env st.db data.incidentType
        data.latitude data.longitude now
    let incident : Incident :=
      { id := newId
        incidentType := strUpper data.incidentType
        description :=
          if duplicateCheck.isDuplicate then dupMarker ++ data.description
          else data.description
        latitude := data.latitude
        longitude := data.longitude
        severity := data.severity
        status := if duplicateCheck.isDuplicate then .FLAGGED else .REPORTED
        upvoteCount := 0
        mediaUrl := mediaUrl
        createdAt := now
        updatedAt := now }
    let st1 := { st with db := { st.db with incidents := st.db.incidents ++ [incident] } }
    (.ok incident, emit st1 (.newIncident incident))

/-- Sort keys accepted by the list endpoint. -/
inductive SortKey
  | createdAt
  | updatedAt
  | severity
  | upvoteCount
deriving DecidableEq

/-- Sort directions accepted by the list endpoint. -/
inductive SortOrder
  | asc
  | desc
deriving DecidableEq

/-- Rank used when sorting by the severity enum. -/
def sevRank : Severity → ℤ
  | .LOW => 0
  | .MEDIUM => 1
  | .HIGH => 2

/-- The numeric key a sort key extracts from a row. -/
def sortKeyVal : SortKey → Incident → ℤ
  | .createdAt, i => i.createdAt
  | .updatedAt, i => i.updatedAt
  | .severity, i => sevRank i.severity
  | .upvoteCount, i => (i.upvoteCount : ℤ)

/-- `IncidentQueryInput` after zod validation of the query string: every
filter is individually optional; page defaults to 1, limit to 20. -/
structure IncidentQuery where
  page : Nat
  limit : Nat
  status : Option IncidentStatus
  incidentType : Option String
  severity : Option Severity
  sortBy : SortKey
  sortOrder : SortOrder
  minLat : Option ℚ
  maxLat : Option ℚ
  minLng : Option ℚ
  maxLng : Option ℚ
deriving DecidableEq

/-- The `where` clause built by `IncidentService.getIncidents`: note the
geo conditions are added only when BOTH ends of an axis are present
(`query.minLat !== undefined && query.maxLat !== undefined`, and likewise
for longitude). -/
def matchesWhere (q : IncidentQuery) (i : Incident) : Bool :=
  (match q.status with
   | some s => decide (i.status = s)
   | none => true) &&
  (match q.incidentType with
   | some t => decide (i.incidentType = strUpper t)
   | none => true) &&
  (match q.severity with
   | some s => decide (i.severity = s)
   | none => true) &&
  (match q.minLat, q.maxLat with
   | some a, some b => decide (a ≤ i.latitude) && decide (i.latitude ≤ b)
   | _, _ => true) &&
  (match q.minLng, q.maxLng with
   | some a, some b => decide (a ≤ i.longitude) && decide (i.longitude ≤ b)
   | _, _ => true)

/-- The page object returned by `getIncidents`. -/
structure IncidentPage where
  incidents : List Incident
  total : Nat
  page : Nat
  totalPages : Nat
deriving DecidableEq

/-- `IncidentService.getIncidents(query)`: filter by the where clause, sort
by the requested key/direction, paginate with `skip = (page-1)*limit` and
`take = limit`; `totalPages = ceil(total/limit)`. -/
def getIncidents (q : IncidentQuery) (db : DB) : IncidentPage :=
  let skip := (q.page - 1) * q.limit
  let filtered := db.incidents.filter (matchesWhere q)
  let sorted :=
    match q.sortOrder with
    | .desc => sortDescBy (sortKeyVal q.sortBy) filtered
    | .asc => sortAscBy (sortKeyVal q.sortBy) filtered
  let total := filtered.length
  { incidents := (sorted.drop skip).take q.limit
    total := total
    page := q.page
    totalPages := (total + q.limit - 1) / q.limit }

/-- The pair returned by `upvoteIncident`.  `incident` is an `Option`
because on the already-voted path the source reads the row with
`findUnique` and passes it through a compile-time-only non-null assertion
(`incident!`), so a vanished row flows through as null. -/
structure UpvoteRes where
  incident : Option Incident
  alreadyVoted : Bool
deriving DecidableEq

/-- `IncidentService.upvoteIncident(incidentId, userId)`.
`raceLoss` injects the concurrency outcome of the vote/increment
transaction: when true, a concurrent request inserted the same
(userId, incidentId) vote between the `findUnique` check and the
transaction, so `vote.create` fails with the uniqueness violation P2002 and
the whole transaction rolls back.  `now` is the vote row's creation time. -/
def upvoteIncident (env : Env) (raceLoss : Bool) (now : ℤ) (st : St)
    (incidentId userId : String) : Except Err UpvoteRes × St :=
  if userId = "anonymous" then
    match prismaUpdate st.db.incidents incidentId
        (fun i => { i with upvoteCount := i.upvoteCount + 1 }) with
    | none => (.error .prismaP2025, st)
    | some (incident, incs) =>
      (.ok { incident := some incident, alreadyVoted := false },
       { st with db := { st.db with incidents := incs } })
  else
    match st.db.votes.find? (fun v =>
        decide (v.userId = userId) && decide (v.incidentId = incidentId)) with
    | some _ =>
      (.ok { incident := findIncident st.db incidentId, alreadyVoted := true }, st)
    | none =>
      if raceLoss then (.error (.prismaP2002 ["userId", "incidentId"]), st)
      else
        match prismaUpdate st.db.incidents incidentId
            (fun i => { i with upvoteCount := i.upvoteCount + 1 }) with
        | none => (.error .prismaP2025, st)
        | some (incident, incs) =>
          let st1 := { st with db := { st.db with
              incidents := incs
              votes := st.db.votes ++
                [{ userId := userId, incidentId := incidentId, createdAt := now }] } }
          if incident.status = .REPORTED ∧
              env.VERIFICATION_THRESHOLD ≤ incident.upvoteCount then
            match prismaUpdate st1.db.incidents incidentId
                (fun i => { i with status := .VERIFIED }) with
            | none => (.error .prismaP2025, st1)
            | some (verifiedIncident, incs2) =>
              let st2 := { st1 with db := { st1.db with incidents := incs2 } }
              (.ok { incident := some verifiedIncident, alreadyVoted := false },
               emit st2 (.incidentUpdate verifiedIncident))
          else
            (.ok { incident := some incident, alreadyVoted := false }, st1)

/-- `IncidentService.updateIncidentStatus(id, status, adminId, note)`.
`noteInsertFails` injects a persistence failure of the `adminNote.create`
call (the second, separate write); the preceding status update is already
committed when it runs. -/
def updateIncidentStatus (id : String) (status : IncidentStatus)
    (adminId : String) (note : Option String) (noteInsertFails : Bool)
    (now : ℤ) (st : St) : Except Err Incident × St :=
  match prismaUpdate st.db.incidents id
      (fun i => { i with status := status, updatedAt := now }) with
  | none => (.error .prismaP2025, st)
  | some (incident, incs) =>
    let st1 := { st with db := { st.db with incidents := incs } }
    match note with
    | some n =>
      if noteInsertFails then (.error (.dbFailure "adminNote insert failed"), st1)
      else
        let st2 := { st1 with db := { st1.db with adminNotes := st1.db.adminNotes ++
          [{ incidentId := id, userId := adminId
             note := "Status changed to " ++ statusStr status ++ ": " ++ n
             createdAt := now }] } }
        (.ok incident, emit st2 (.incidentUpdate incident))
    | none => (.ok incident, emit st1 (.incidentUpdate incident))

/-- The JSON error response produced by the error middleware. -/
structure ErrResponse where
  status : Nat
  success : Bool
  error : String
deriving DecidableEq

/-- `errorHandler` from error.middleware.ts, restricted to the error kinds
reachable from the embedded operations: Prisma known request errors P2002
(409 conflict) and P2025 (404), and plain `Error`s (500, with the message
hidden in production mode). -/
def errorHandler (productionMode : Bool) (e : Err) : ErrResponse :=
  match e with
  | .prismaP2002 target =>
    let t := if target.isEmpty then "field" else String.intercalate ", " target
    { status := 409, success := false
      error := "A record with this " ++ t ++ " already exists" }
  | .prismaP2025 => { status := 404, success := false, error := "Record not found" }
  | .cloudinaryErr msg =>
    { status := 500, success := false
      error := if productionMode then "An unexpected error occurred" else msg }
  | .dbFailure msg =>
    { status := 500, success := false
      error := if productionMode then "An unexpected error occurred" else msg }

/-- What the upvote endpoint sends back: either a 200 success envelope with
the service result and a message, or the error middleware's response. -/
inductive UpvoteHttpRes
  | ok (r : UpvoteRes) (message : String)
  | err (r : ErrResponse)
deriving DecidableEq

/-- `IncidentController.upvoteIncident` (POST /api/incidents/:id/upvote),
composed with the error middleware: `userId := req.user?.id || 'anonymous'`;
a thrown error is passed by `next(error)` into `errorHandler`. -/
def upvoteEndpoint (env : Env) (raceLoss : Bool) (now : ℤ) (st : St)
    (id : String) (authUserId : Option String) : UpvoteHttpRes × St :=
  let userId := authUserId.getD "anonymous"
  match upvoteIncident env raceLoss now st id userId with
  | (.ok r, st') =>
    if r.alreadyVoted then (.ok r "You have already upvoted this incident", st')
    else
      (.ok r
        (match r.incident with
         | some inc =>
           if inc.status = .VERIFIED then "Upvote recorded. Incident is now verified!"
           else "Upvote recorded successfully"
         | none => "Upvote recorded successfully"), st')
  | (.error e, st') => (.err (errorHandler false e), st')

/-! ### The geo-distance utility (distance.ts), over the reals

The source computes with floating-point `Math` functions; the embedding uses
exact real arithmetic, hence these definitions are noncomputable.  They are
used to justify, over the reals, the concrete facts that the parametrised
duplicate-detection pipeline takes as hypotheses. -/

/-- Earth's mean radius in meters. -/
def EARTH_RADIUS_METERS : ℝ := 6371000

/-- `toRadians(degrees)`. -/
noncomputable def toRadians (degrees : ℝ) : ℝ := degrees * (Real.pi / 180)

/-- `Math.atan2(y, x)` restricted to the closed first quadrant, the only
region `calculateDistance` uses it on (both arguments are square roots). -/
noncomputable def atan2fq (y x : ℝ) : ℝ :=
  if x = 0 then Real.pi / 2 else Real.arctan (y / x)

/-- `calculateDistance(lat1, lon1, lat2, lon2)`: the haversine formula. -/
noncomputable def calculateDistance (lat1 lon1 lat2 lon2 : ℝ) : ℝ :=
  let dLat := toRadians (lat2 - lat1)
  let dLon := toRadians (lon2 - lon1)
  let a := Real.sin (dLat / 2) * Real.sin (dLat / 2) +
    Real.cos (toRadians lat1) * Real.cos (toRadians lat2) *
    Real.sin (dLon / 2) * Real.sin (dLon / 2)
  let c := 2 * atan2fq (Real.sqrt a) (Real.sqrt (1 - a))
  EARTH_RADIUS_METERS * c

/-- `isWithinDistance(lat1, lon1, lat2, lon2, maxDistanceMeters)`. -/
noncomputable def isWithinDistance (lat1 lon1 lat2 lon2 maxDistanceMeters : ℝ) : Prop :=
  calculateDistance lat1 lon1 lat2 lon2 ≤ maxDistanceMeters

/-! ### Concrete data used by witnesses and counterexamples -/

/-- A REPORTED incident with no upvotes. -/
def sampleIncident : Incident :=
  { id := "i1", incidentType := "FIRE", description := "a fire broke out"
    latitude := 40, longitude := -75, severity := .MEDIUM, status := .REPORTED
    upvoteCount := 0, mediaUrl := none, createdAt := 0, updatedAt := 0 }

/-- A state holding just `sampleIncident`, no votes, live socket. -/
def sampleSt : St :=
  { db := { incidents := [sampleIncident], votes := [], adminNotes := [] }
    socketOn := true, events := [] }

/-- Same incident at 4 upvotes. -/
def incFour : Incident := { sampleIncident with id := "i4", upvoteCount := 4 }

/-- Same incident at 3 upvotes. -/
def incThree : Incident := { sampleIncident with id := "i3", upvoteCount := 3 }

/-- A state holding the 4-vote and 3-vote incidents. -/
def stPair : St :=
  { db := { incidents := [incFour, incThree], votes := [], adminNotes := [] }
    socketOn := true, events := [] }

/-- An empty state. -/
def stEmpty : St :=
  { db := { incidents := [], votes := [], adminNotes := [] }
    socketOn := true, events := [] }

/-- Creation input of incident A in the spec's concrete walkthrough:
(40.0, -75.0), type FIRE, 12-character description, defaulted severity. -/
def dataA : CreateIncidentInput :=
  { incidentType := "FIRE", description := "fire nearby!"
    latitude := 40, longitude := -75, severity := parseSeverity none }

/-- Creation input of incident B: (40.0005, -75.0005), type FIRE. -/
def dataB : CreateIncidentInput :=
  { incidentType := "FIRE", description := "another fire"
    latitude := 40.0005, longitude := -75.0005, severity := parseSeverity none }

/-- A query with only the lower latitude bound supplied. -/
def qLoneMin : IncidentQuery :=
  { page := 1, limit := 20, status := none, incidentType := none
    severity := none, sortBy := .createdAt, sortOrder := .desc
    minLat := some 10, maxLat := none, minLng := none, maxLng := none }

/-- A query with no filters at all. -/
def qNoFilter : IncidentQuery :=
  { page := 1, limit := 20, status := none, incidentType := none
    severity := none, sortBy := .createdAt, sortOrder := .desc
    minLat := none, maxLat := none, minLng := none, maxLng := none }

/-- An incident on the equator (latitude 0). -/
def incEquator : Incident := { sampleIncident with id := "e1", latitude := 0 }

/-- A database holding one incident at latitude 0. -/
def dbLowLat : DB := { incidents := [incEquator], votes := [], adminNotes := [] }

/-- The incident the walkthrough's first creation stores. -/
def incCaseA : Incident :=
  { id := "A", incidentType := "FIRE", description := "fire nearby!"
    latitude := 40, longitude := -75, severity := .MEDIUM, status := .REPORTED
    upvoteCount := 0, mediaUrl := none, createdAt := 0, updatedAt := 0 }

/-- The state after the walkthrough's first creation. -/
def stCaseA : St :=
  { db := { incidents := [incCaseA], votes := [], adminNotes := [] }
    socketOn := true, events := [.newIncident incCaseA] }

/-- The incident the walkthrough's second creation stores. -/
def incCaseB : Incident :=
  { id := "B", incidentType := "FIRE", description := dupMarker ++ "another fire"
    latitude := 40.0005, longitude := -75.0005, severity := .MEDIUM, status := .FLAGGED
    upvoteCount := 0, mediaUrl := none, createdAt := 60000, updatedAt := 60000 }

/-- The state after the walkthrough's second creation. -/
def stCaseB : St :=
  { db := { incidents := [incCaseA, incCaseB], votes := [], adminNotes := [] }
    socketOn := true, events := [.newIncident incCaseA, .newIncident incCaseB] }

/-! ## Helper lemmas -/

theorem emit_db (st : St) (e : Event) : (emit st e).db = st.db := by
  unfold emit; split <;> rfl

theorem emit_socketOn (st : St) (e : Event) : (emit st e).socketOn = st.socketOn := by
  unfold emit; split <;> rfl

theorem emit_events_on (st : St) (e : Event) (h : st.socketOn = true) :
    (emit st e).events = st.events ++ [e] := by
  simp [emit, h]

/-- A successful `prisma.incident.update` on a present row: the row found by
id is rewritten through `f` (which preserves ids) and is found again after
the update. -/
theorem prismaUpdate_some (l : List Incident) (id : String) (f : Incident → Incident)
    (i0 : Incident) (hf : ∀ i, (f i).id = i.id)
    (h : l.find? (fun i => decide (i.id = id)) = some i0) :
    ∃ l', prismaUpdate l id f = some (f i0, l') ∧
      l'.find? (fun i => decide (i.id = id)) = some (f i0) := by
  induction l with
  | nil => simp [List.find?] at h
  | cons a rest ih =>
    by_cases ha : a.id = id
    · have hfind : (a :: rest).find? (fun i => decide (i.id = id)) = some a :=
        List.find?_cons_of_pos _ (by simp [ha])
      rw [hfind, Option.some.injEq] at h
      subst h
      refine ⟨f a :: rest, ?_, ?_⟩
      · simp [prismaUpdate, ha]
      · exact List.find?_cons_of_pos _ (by simp [hf a, ha])
    · have hfind : (a :: rest).find? (fun i => decide (i.id = id)) =
          rest.find? (fun i => decide (i.id = id)) := by
        simp [List.find?_cons, ha]
      rw [hfind] at h
      obtain ⟨l', h1, h2⟩ := ih h
      refine ⟨a :: l', ?_, ?_⟩
      · simp [prismaUpdate, ha, h1]
      · simp [List.find?_cons, ha, h2]

/-- The detector's scan loop returns exactly the first candidate (in list
order) passing the precise distance check. -/
theorem dupScanLoop_eq_find? (near : ℚ → ℚ → ℚ → ℚ → ℚ → Bool) (env : Env)
    (lat lon : ℚ) (l : List Incident) :
    dupScanLoop near env lat lon l =
      match l.find? (fun i =>
          near lat lon i.latitude i.longitude env.DUPLICATE_DISTANCE_METERS) with
      | some i =>
        { isDuplicate := true, duplicateOf := some i.id, reason := some (dupReason env) }
      | none => { isDuplicate := false, duplicateOf := none, reason := none } := by
  induction l with
  | nil => rfl
  | cons a rest ih =>
    by_cases hn : near lat lon a.latitude a.longitude env.DUPLICATE_DISTANCE_METERS = true
    · simp [dupScanLoop, hn, List.find?_cons]
    · simp only [Bool.not_eq_true] at hn
      simp [dupScanLoop, hn, List.find?_cons, ih]

/-! ## Claim theorems -/

/-- C5: `checkForDuplicate(type, lat, lon)` computes the time window
(now minus the configured duration), the bounding box with
latitude delta = maxDistance/111000 and longitude delta =
latitude delta / cos(latitude in radians), considers at most the 20
most-recently-created same-type (case-insensitive) incidents inside the
window and box, excluding RESOLVED and FLAGGED, and returns the first of
them in descending recency order that is within the configured max distance;
it reports no duplicate when no candidate matches. -/
theorem checkForDuplicate_correct (near : ℚ → ℚ → ℚ → ℚ → ℚ → Bool)
    (cosLatRad : ℚ) (env : Env) (db : DB) (incidentType : String)
    (latitude longitude : ℚ) (now : ℤ) :
    checkForDuplicate near cosLatRad env db incidentType latitude longitude now =
      checkForDuplicateSpec near cosLatRad env db incidentType latitude longitude now := by
  unfold checkForDuplicate checkForDuplicateSpec
  exact dupScanLoop_eq_find? near env latitude longitude _

/-- C9: when media bytes are supplied and the media store fails, creation
fails with the propagated upload error and nothing is persisted (the state,
incidents included, is returned untouched); when the store succeeds, the
returned URL is attached to the single incident row appended afterwards. -/
theorem create_media_first (near : ℚ → ℚ → ℚ → ℚ → ℚ → Bool) (cosLatRad : ℚ)
    (env : Env) (data : CreateIncidentInput) (e : String) (newId : String)
    (now : ℤ) (st : St) :
    createIncident near cosLatRad env data (some (.error e)) newId now st =
      (.error (.cloudinaryErr ("Cloudinary upload failed: " ++ e)), st) ∧
    ∀ url, ∃ inc st',
      createIncident near cosLatRad env data (some (.ok url)) newId now st =
        (.ok inc, st') ∧
      inc.mediaUrl = some url ∧ st'.db.incidents = st.db.incidents ++ [inc] := by
  constructor
  · rfl
  · intro url
    refine ⟨_, _, rfl, rfl, ?_⟩
    rw [emit_db]

/-- C2: a fresh authenticated upvote on an incident whose pre-transaction
status is REPORTED increments the count; exactly when the post-increment
count has reached the verification threshold, the incident becomes VERIFIED
and one `incident:update` event is published, and otherwise no event is
published and the status stays REPORTED. -/
theorem upvote_verification_threshold (env : Env) (st : St) (id u : String)
    (inc0 : Incident) (now : ℤ)
    (hu : u ≠ "anonymous")
    (hv : st.db.votes.find? (fun v =>
        decide (v.userId = u) && decide (v.incidentId = id)) = none)
    (hinc : st.db.incidents.find? (fun i => decide (i.id = id)) = some inc0)
    (hrep : inc0.status = .REPORTED)
    (hsock : st.socketOn = true) :
    ∃ inc1 st1,
      upvoteIncident env false now st id u = (.ok ⟨some inc1, false⟩, st1) ∧
      inc1.upvoteCount = inc0.upvoteCount + 1 ∧
      (env.VERIFICATION_THRESHOLD ≤ inc0.upvoteCount + 1 →
        inc1.status = .VERIFIED ∧
        st1.events = st.events ++ [.incidentUpdate inc1]) ∧
      (¬ env.VERIFICATION_THRESHOLD ≤ inc0.upvoteCount + 1 →
        inc1.status = .REPORTED ∧ st1.events = st.events) := by
  obtain ⟨l₁, hupd1, hl₁⟩ := prismaUpdate_some st.db.incidents id
    (fun i => { i with upvoteCount := i.upvoteCount + 1 }) inc0 (fun _ => rfl) hinc
  by_cases hth : env.VERIFICATION_THRESHOLD ≤ inc0.upvoteCount + 1
  · obtain ⟨l₂, hupd2, hl₂⟩ := prismaUpdate_some l₁ id
      (fun i => { i with status := .VERIFIED })
      { inc0 with upvoteCount := inc0.upvoteCount + 1 } (fun _ => rfl) hl₁
    have heval : upvoteIncident env false now st id u =
        (.ok ⟨some ({ inc0 with upvoteCount := inc0.upvoteCount + 1, status := .VERIFIED } : Incident), false⟩,
         emit { st with db := { st.db with incidents := l₂, votes := st.db.votes ++ [{ userId := u, incidentId := id, createdAt := now }] } }
           (.incidentUpdate { inc0 with upvoteCount := inc0.upvoteCount + 1, status := .VERIFIED })) := by
      unfold upvoteIncident
      rw [if_neg hu, hv, hupd1]
      dsimp only
      rw [if_pos (⟨hrep, hth⟩ :
        inc0.status = .REPORTED ∧
          env.VERIFICATION_THRESHOLD ≤ inc0.upvoteCount + 1)]
      rw [hupd2]
      rfl
    exact ⟨_, _, heval, rfl, fun _ => ⟨rfl, emit_events_on _ _ hsock⟩,
      fun h => absurd hth h⟩
  · have heval : upvoteIncident env false now st id u =
        (.ok ⟨some ({ inc0 with upvoteCount := inc0.upvoteCount + 1 } : Incident), false⟩,
         { st with db := { st.db with incidents := l₁, votes := st.db.votes ++ [{ userId := u, incidentId := id, createdAt := now }] } }) := by
      unfold upvoteIncident
      rw [if_neg hu, hv, hupd1]
      dsimp only
      rw [if_neg (show ¬(inc0.status = IncidentStatus.REPORTED ∧
        env.VERIFICATION_THRESHOLD ≤ inc0.upvoteCount + 1) from fun h => hth h.2)]
      rfl
    exact ⟨_, _, heval, rfl, fun h => absurd h hth, fun _ => ⟨hrep, rfl⟩⟩

/-- Witness for C2: with the default threshold 5, the incident at
upvoteCount 4 crosses the threshold (becomes VERIFIED, one update event);
the one at upvoteCount 3 does not (stays REPORTED, no event). -/
theorem upvote_verification_threshold_w :
    (∃ inc1 st1,
      upvoteIncident defaultEnv false 1 stPair "i4" "u1" = (.ok ⟨some inc1, false⟩, st1) ∧
      inc1.upvoteCount = incFour.upvoteCount + 1 ∧
      (defaultEnv.VERIFICATION_THRESHOLD ≤ incFour.upvoteCount + 1 →
        inc1.status = .VERIFIED ∧
        st1.events = stPair.events ++ [.incidentUpdate inc1]) ∧
      (¬ defaultEnv.VERIFICATION_THRESHOLD ≤ incFour.upvoteCount + 1 →
        inc1.status = .REPORTED ∧ st1.events = stPair.events)) ∧
    (∃ inc1 st1,
      upvoteIncident defaultEnv false 1 stPair "i3" "u1" = (.ok ⟨some inc1, false⟩, st1) ∧
      inc1.upvoteCount = incThree.upvoteCount + 1 ∧
      (defaultEnv.VERIFICATION_THRESHOLD ≤ incThree.upvoteCount + 1 →
        inc1.status = .VERIFIED ∧
        st1.events = stPair.events ++ [.incidentUpdate inc1]) ∧
      (¬ defaultEnv.VERIFICATION_THRESHOLD ≤ incThree.upvoteCount + 1 →
        inc1.status = .REPORTED ∧ st1.events = stPair.events)) :=
  ⟨upvote_verification_threshold defaultEnv stPair "i4" "u1" incFour 1
      (by decide) rfl (by decide) rfl rfl,
   upvote_verification_threshold defaultEnv stPair "i3" "u1" incThree 1
      (by decide) rfl (by decide) rfl rfl⟩

/-- An upvote by a user who already has a Vote row returns the currently
stored incident with `alreadyVoted = true` and performs no writes at all
(the state is returned unchanged), whatever the race parameter. -/
theorem upvoteIncident_already (env : Env) (raceLoss : Bool) (now : ℤ)
    (st : St) (id u : String) (w : Vote) (incV : Incident)
    (hu : u ≠ "anonymous")
    (hv : st.db.votes.find? (fun v =>
        decide (v.userId = u) && decide (v.incidentId = id)) = some w)
    (hfind : st.db.incidents.find? (fun i => decide (i.id = id)) = some incV) :
    upvoteIncident env raceLoss now st id u = (.ok ⟨some incV, true⟩, st) := by
  unfold upvoteIncident
  rw [if_neg hu, hv]
  dsimp only
  unfold findIncident
  rw [hfind]

/-- C3: a first fresh authenticated upvote increments the stored count by
exactly one; the second upvote by the same user returns the same stored
incident with `alreadyVoted = true` and leaves the state exactly as the
first call left it (no writes). -/
theorem upvote_idempotent (env : Env) (st : St) (id u : String)
    (inc0 : Incident) (now1 now2 : ℤ)
    (hu : u ≠ "anonymous")
    (hv : st.db.votes.find? (fun v =>
        decide (v.userId = u) && decide (v.incidentId = id)) = none)
    (hinc : st.db.incidents.find? (fun i => decide (i.id = id)) = some inc0) :
    ∃ inc1 st1,
      upvoteIncident env false now1 st id u = (.ok ⟨some inc1, false⟩, st1) ∧
      inc1.upvoteCount = inc0.upvoteCount + 1 ∧
      st1.db.incidents.find? (fun i => decide (i.id = id)) = some inc1 ∧
      upvoteIncident env false now2 st1 id u = (.ok ⟨some inc1, true⟩, st1) := by
  obtain ⟨l₁, hupd1, hl₁⟩ := prismaUpdate_some st.db.incidents id
    (fun i => { i with upvoteCount := i.upvoteCount + 1 }) inc0 (fun _ => rfl) hinc
  by_cases hc : inc0.status = .REPORTED ∧
      env.VERIFICATION_THRESHOLD ≤ inc0.upvoteCount + 1
  · obtain ⟨l₂, hupd2, hl₂⟩ := prismaUpdate_some l₁ id
      (fun i => { i with status := .VERIFIED })
      { inc0 with upvoteCount := inc0.upvoteCount + 1 } (fun _ => rfl) hl₁
    refine ⟨{ inc0 with upvoteCount := inc0.upvoteCount + 1, status := .VERIFIED },
      emit { st with db := { st.db with incidents := l₂, votes := st.db.votes ++ [{ userId := u, incidentId := id, createdAt := now1 }] } } (.incidentUpdate { inc0 with upvoteCount := inc0.upvoteCount + 1, status := .VERIFIED }),
      ?_, rfl, ?_, ?_⟩
    · unfold upvoteIncident
      rw [if_neg hu, hv, hupd1]
      dsimp only
      rw [if_pos hc, hupd2]
      rfl
    · rw [emit_db]
      exact hl₂
    · refine upvoteIncident_already env false now2 _ id u
        { userId := u, incidentId := id, createdAt := now1 } _ hu ?_ ?_
      · rw [emit_db]
        simp [List.find?_append, hv]
      · rw [emit_db]
        exact hl₂
  · refine ⟨{ inc0 with upvoteCount := inc0.upvoteCount + 1 },
      { st with db := { st.db with incidents := l₁, votes := st.db.votes ++ [{ userId := u, incidentId := id, createdAt := now1 }] } },
      ?_, rfl, ?_, ?_⟩
    · unfold upvoteIncident
      rw [if_neg hu, hv, hupd1]
      dsimp only
      rw [if_neg hc]
      rfl
    · exact hl₁
    · refine upvoteIncident_already env false now2 _ id u
        { userId := u, incidentId := id, createdAt := now1 } _ hu ?_ ?_
      · simp [List.find?_append, hv]
      · exact hl₁

/-- Witness for C3 at a concrete state: incident `i1`, user `u1`. -/
theorem upvote_idempotent_w :
    ∃ inc1 st1,
      upvoteIncident defaultEnv false 1 sampleSt "i1" "u1" = (.ok ⟨some inc1, false⟩, st1) ∧
      inc1.upvoteCount = sampleIncident.upvoteCount + 1 ∧
      st1.db.incidents.find? (fun i => decide (i.id = "i1")) = some inc1 ∧
      upvoteIncident defaultEnv false 2 st1 "i1" "u1" = (.ok ⟨some inc1, true⟩, st1) :=
  upvote_idempotent defaultEnv sampleSt "i1" "u1" sampleIncident 1 2
    (by decide) rfl (by decide)

/-- C8: an anonymous upvote creates no Vote row and is not deduplicated —
two anonymous upvote calls on the same incident (whatever the race
parameters) both succeed and increment the stored count twice, leaving the
votes table untouched. -/
theorem upvote_anonymous_unconditional (env : Env) (r1 r2 : Bool)
    (now1 now2 : ℤ) (st : St) (id : String) (inc0 : Incident)
    (hinc : st.db.incidents.find? (fun i => decide (i.id = id)) = some inc0) :
    ∃ inc1 st1 inc2 st2,
      upvoteIncident env r1 now1 st id "anonymous" = (.ok ⟨some inc1, false⟩, st1) ∧
      st1.db.votes = st.db.votes ∧ inc1.upvoteCount = inc0.upvoteCount + 1 ∧
      upvoteIncident env r2 now2 st1 id "anonymous" = (.ok ⟨some inc2, false⟩, st2) ∧
      st2.db.votes = st.db.votes ∧ inc2.upvoteCount = inc0.upvoteCount + 2 := by
  obtain ⟨l₁, hupd1, hl₁⟩ := prismaUpdate_some st.db.incidents id
    (fun i => { i with upvoteCount := i.upvoteCount + 1 }) inc0 (fun _ => rfl) hinc
  obtain ⟨l₂, hupd2, hl₂⟩ := prismaUpdate_some l₁ id
    (fun i => { i with upvoteCount := i.upvoteCount + 1 })
    { inc0 with upvoteCount := inc0.upvoteCount + 1 } (fun _ => rfl) hl₁
  refine ⟨{ inc0 with upvoteCount := inc0.upvoteCount + 1 },
    { st with db := { st.db with incidents := l₁ } },
    { inc0 with upvoteCount := inc0.upvoteCount + 1 + 1 },
    { st with db := { st.db with incidents := l₂ } }, ?_, rfl, rfl, ?_, rfl, rfl⟩
  · unfold upvoteIncident
    rw [if_pos rfl, hupd1]
  · unfold upvoteIncident
    rw [if_pos rfl]
    dsimp only
    rw [hupd2]

/-- Witness for C8: two anonymous upvotes on the sample incident. -/
theorem upvote_anonymous_unconditional_w :
    ∃ inc1 st1 inc2 st2,
      upvoteIncident defaultEnv false 1 sampleSt "i1" "anonymous" = (.ok ⟨some inc1, false⟩, st1) ∧
      st1.db.votes = sampleSt.db.votes ∧ inc1.upvoteCount = sampleIncident.upvoteCount + 1 ∧
      upvoteIncident defaultEnv false 2 st1 "i1" "anonymous" = (.ok ⟨some inc2, false⟩, st2) ∧
      st2.db.votes = sampleSt.db.votes ∧ inc2.upvoteCount = sampleIncident.upvoteCount + 2 :=
  upvote_anonymous_unconditional defaultEnv false false 1 2 sampleSt "i1"
    sampleIncident (by decide)

/-- C4: as long as the media step does not fail, creation always persists
exactly one new incident (duplicate detection never blocks creation); the
row is FLAGGED with the duplicate marker prepended to its description when
the detector flags it, and REPORTED with the description untouched
otherwise. -/
theorem create_flags_duplicates (near : ℚ → ℚ → ℚ → ℚ → ℚ → Bool)
    (cosLatRad : ℚ) (env : Env) (data : CreateIncidentInput)
    (media : Option (Except String String)) (newId : String) (now : ℤ) (st : St)
    (hm : ∀ e, media ≠ some (.error e)) :
    ∃ inc st',
      createIncident near cosLatRad env data media newId now st = (.ok inc, st') ∧
      st'.db.incidents = st.db.incidents ++ [inc] ∧
      inc.status = (if (checkForDuplicate near cosLatRad env st.db
          data.incidentType data.latitude data.longitude now).isDuplicate
        then .FLAGGED else .REPORTED) ∧
      inc.description = (if (checkForDuplicate near cosLatRad env st.db
          data.incidentType data.latitude data.longitude now).isDuplicate
        then dupMarker ++ data.description else data.description) := by
  match media with
  | none => exact ⟨_, _, rfl, by rw [emit_db], rfl, rfl⟩
  | some (.ok url) => exact ⟨_, _, rfl, by rw [emit_db], rfl, rfl⟩
  | some (.error e) => exact absurd rfl (hm e)

/-- Witness for C4 on an empty database (no duplicate): the created row is
REPORTED with the description untouched. -/
theorem create_flags_duplicates_w :
    ∃ inc st',
      createIncident (fun _ _ _ _ _ => false) 1 defaultEnv dataA none "A" 0 stEmpty =
        (.ok inc, st') ∧
      st'.db.incidents = stEmpty.db.incidents ++ [inc] ∧
      inc.status = (if (checkForDuplicate (fun _ _ _ _ _ => false) 1 defaultEnv
          stEmpty.db dataA.incidentType dataA.latitude dataA.longitude 0).isDuplicate
        then .FLAGGED else .REPORTED) ∧
      inc.description = (if (checkForDuplicate (fun _ _ _ _ _ => false) 1 defaultEnv
          stEmpty.db dataA.incidentType dataA.latitude dataA.longitude 0).isDuplicate
        then dupMarker ++ dataA.description else dataA.description) :=
  create_flags_duplicates (fun _ _ _ _ _ => false) 1 defaultEnv dataA none "A" 0
    stEmpty (fun e h => Option.noConfusion h)

/-- C10: with a note supplied and the AdminNote insert failing, the status
change and the new `updatedAt` are already committed, no note exists, the
call errors and no update event is published; when the insert succeeds, the
event is published after the note is recorded. -/
theorem updateStatus_two_writes (id : String) (status : IncidentStatus)
    (adminId : String) (n : String) (now : ℤ) (st : St) (inc0 : Incident)
    (hinc : st.db.incidents.find? (fun i => decide (i.id = id)) = some inc0)
    (hsock : st.socketOn = true) :
    ∃ inc1 st1,
      updateIncidentStatus id status adminId (some n) true now st =
        (.error (.dbFailure "adminNote insert failed"), st1) ∧
      st1.db.incidents.find? (fun i => decide (i.id = id)) = some inc1 ∧
      inc1.status = status ∧ inc1.updatedAt = now ∧
      st1.db.adminNotes = st.db.adminNotes ∧
      st1.events = st.events ∧
      ∃ st2,
        updateIncidentStatus id status adminId (some n) false now st = (.ok inc1, st2) ∧
        st2.events = st.events ++ [.incidentUpdate inc1] ∧
        st2.db.adminNotes = st.db.adminNotes ++
          [{ incidentId := id, userId := adminId, note := "Status changed to " ++ statusStr status ++ ": " ++ n, createdAt := now }] := by
  obtain ⟨l₁, hupd1, hl₁⟩ := prismaUpdate_some st.db.incidents id
    (fun i => { i with status := status, updatedAt := now }) inc0 (fun _ => rfl) hinc
  refine ⟨{ inc0 with status := status, updatedAt := now },
    { st with db := { st.db with incidents := l₁ } }, ?_, hl₁, rfl, rfl, rfl, rfl,
    emit { st with db := { st.db with incidents := l₁, adminNotes := st.db.adminNotes ++ [{ incidentId := id, userId := adminId, note := "Status changed to " ++ statusStr status ++ ": " ++ n, createdAt := now }] } } (.incidentUpdate { inc0 with status := status, updatedAt := now }),
    ?_, emit_events_on _ _ hsock, by rw [emit_db]⟩
  · unfold updateIncidentStatus
    rw [hupd1]
    rfl
  · unfold updateIncidentStatus
    rw [hupd1]
    rfl

/-- Witness for C10 on the sample state. -/
theorem updateStatus_two_writes_w :
    ∃ inc1 st1,
      updateIncidentStatus "i1" .IN_PROGRESS "a1" (some "on it") true 7 sampleSt =
        (.error (.dbFailure "adminNote insert failed"), st1) ∧
      st1.db.incidents.find? (fun i => decide (i.id = "i1")) = some inc1 ∧
      inc1.status = .IN_PROGRESS ∧ inc1.updatedAt = 7 ∧
      st1.db.adminNotes = sampleSt.db.adminNotes ∧
      st1.events = sampleSt.events ∧
      ∃ st2,
        updateIncidentStatus "i1" .IN_PROGRESS "a1" (some "on it") false 7 sampleSt =
          (.ok inc1, st2) ∧
        st2.events = sampleSt.events ++ [.incidentUpdate inc1] ∧
        st2.db.adminNotes = sampleSt.db.adminNotes ++
          [{ incidentId := "i1", userId := "a1", note := "Status changed to " ++ statusStr .IN_PROGRESS ++ ": " ++ "on it", createdAt := 7 }] :=
  updateStatus_two_writes "i1" .IN_PROGRESS "a1" "on it" 7 sampleSt
    sampleIncident (by decide) rfl

/-- C1 (failing input): an authenticated upvote that loses the concurrent
race — the transaction's `vote.create` fails with the P2002 uniqueness
violation on (userId, incidentId) — propagates out of the service
(which has no handler for it) and reaches the error middleware, which
answers with a 409 failure envelope instead of the success-shaped
`alreadyVoted` outcome the spec requires. -/
theorem upvote_race_surfaced_as_conflict :
    upvoteEndpoint defaultEnv true 1 sampleSt "i1" (some "u1") =
      (.err { status := 409, success := false, error := "A record with this userId, incidentId already exists" }, sampleSt) := by
  rfl

theorem mem_insertDescBy (key : Incident → ℤ) (a x : Incident) (l : List Incident) :
    x ∈ insertDescBy key a l ↔ x = a ∨ x ∈ l := by
  induction l with
  | nil => simp [insertDescBy]
  | cons b rest ih =>
    unfold insertDescBy
    by_cases h : key b < key a
    · simp [h, List.mem_cons]
    · simp [h, List.mem_cons, ih]
      tauto

theorem mem_sortDescBy (key : Incident → ℤ) (l : List Incident) (x : Incident) :
    x ∈ sortDescBy key l ↔ x ∈ l := by
  induction l with
  | nil => simp [sortDescBy]
  | cons a rest ih =>
    simp [sortDescBy, mem_insertDescBy, ih, List.mem_cons]

theorem mem_insertAscBy (key : Incident → ℤ) (a x : Incident) (l : List Incident) :
    x ∈ insertAscBy key a l ↔ x = a ∨ x ∈ l := by
  induction l with
  | nil => simp [insertAscBy]
  | cons b rest ih =>
    unfold insertAscBy
    by_cases h : key a < key b
    · simp [h, List.mem_cons]
    · simp [h, List.mem_cons, ih]
      tauto

theorem mem_sortAscBy (key : Incident → ℤ) (l : List Incident) (x : Incident) :
    x ∈ sortAscBy key l ↔ x ∈ l := by
  induction l with
  | nil => simp [sortAscBy]
  | cons a rest ih =>
    simp [sortAscBy, mem_insertAscBy, ih, List.mem_cons]

/-- Every incident in a returned page satisfies the built where clause. -/
theorem getIncidents_mem_where (q : IncidentQuery) (db : DB) (i : Incident)
    (h : i ∈ (getIncidents q db).incidents) : matchesWhere q i = true := by
  unfold getIncidents at h
  have h1 := List.drop_subset _ _ (List.take_subset _ _ h)
  have h2 : i ∈ db.incidents.filter (matchesWhere q) := by
    cases hso : q.sortOrder <;> rw [hso] at h1
    · rwa [mem_sortAscBy] at h1
    · rwa [mem_sortDescBy] at h1
  exact (List.mem_filter.mp h2).2

/-- C7 counterexample: with only `minLat = 10` supplied (no `maxLat`), the
returned page still contains an incident at latitude 0 — a supplied bound
whose opposite side is omitted is NOT applied. -/
theorem getIncidents_lone_bound_cex :
    ¬ ∀ i ∈ (getIncidents qLoneMin dbLowLat).incidents,
        ∀ a, qLoneMin.minLat = some a → a ≤ i.latitude := by
  intro h
  have hmem : incEquator ∈ (getIncidents qLoneMin dbLowLat).incidents := by decide
  have := h incEquator hmem 10 rfl
  exact absurd this (by decide)

/-- C7 amended: a geographic bound participates in filtering only when the
opposite bound of the same axis is also supplied; when both sides of an axis
are present every returned incident satisfies them, and a lone bound is
ignored (the result is identical to not supplying it). -/
theorem getIncidents_box_amended (q : IncidentQuery) (db : DB) :
    (∀ i ∈ (getIncidents q db).incidents, ∀ a b,
        q.minLat = some a → q.maxLat = some b → a ≤ i.latitude ∧ i.latitude ≤ b) ∧
    (∀ i ∈ (getIncidents q db).incidents, ∀ a b,
        q.minLng = some a → q.maxLng = some b → a ≤ i.longitude ∧ i.longitude ≤ b) ∧
    (q.maxLat = none → ∀ a, getIncidents { q with minLat := some a } db =
      getIncidents { q with minLat := none } db) ∧
    (q.minLat = none → ∀ b, getIncidents { q with maxLat := some b } db =
      getIncidents { q with maxLat := none } db) ∧
    (q.maxLng = none → ∀ a, getIncidents { q with minLng := some a } db =
      getIncidents { q with minLng := none } db) ∧
    (q.minLng = none → ∀ b, getIncidents { q with maxLng := some b } db =
      getIncidents { q with maxLng := none } db) := by
  obtain ⟨pg, lim, stq, ity, sev, sb, so, mla, mxa, mlg, mxg⟩ := q
  refine ⟨?_, ?_, ?_, ?_, ?_, ?_⟩
  · intro i hi a b ha hb
    have hm := getIncidents_mem_where _ db i hi
    dsimp only at ha hb
    subst ha; subst hb
    unfold matchesWhere at hm
    simp only [Bool.and_eq_true, decide_eq_true_eq] at hm
    exact hm.1.2
  · intro i hi a b ha hb
    have hm := getIncidents_mem_where _ db i hi
    dsimp only at ha hb
    subst ha; subst hb
    unfold matchesWhere at hm
    simp only [Bool.and_eq_true, decide_eq_true_eq] at hm
    exact hm.2
  · intro h a
    dsimp only at h
    subst h
    rfl
  · intro h b
    dsimp only at h
    subst h
    rfl
  · intro h a
    dsimp only at h
    subst h
    rfl
  · intro h b
    dsimp only at h
    subst h
    rfl

/-- Witness for the amended C7: a lone `minLat` bound produces the same page
as no latitude bound at all. -/
theorem getIncidents_box_amended_w :
    getIncidents { qNoFilter with minLat := some 10 } dbLowLat =
      getIncidents { qNoFilter with minLat := none } dbLowLat :=
  (getIncidents_box_amended qNoFilter dbLowLat).2.2.1 rfl 10

/-- C6: the spec's concrete walkthrough.  Incident A created at
(40, -75), type FIRE, 12-character description, defaulted severity, on an
empty store is persisted REPORTED with severity MEDIUM.  One minute later,
a creation at (40.0005, -75.0005), type FIRE, has its duplicate check
identify A (`duplicateOf = "A"`) and is persisted FLAGGED with the marked
description.  `near`/`cosB` stand for the floating-point distance predicate
and `Math.cos(40.0005°)`; the hypotheses on them are discharged over the
reals by `within200_at_walkthrough` and `cos_walkthrough_mem`. -/
theorem concrete_walkthrough (near : ℚ → ℚ → ℚ → ℚ → ℚ → Bool) (cosA cosB : ℚ)
    (hnear : near 40.0005 (-75.0005) 40 (-75) 200 = true)
    (hcos0 : 0 < cosB) (hcos1 : cosB ≤ 1) :
    createIncident near cosA defaultEnv dataA none "A" 0 stEmpty =
      (.ok incCaseA, stCaseA) ∧
    incCaseA.status = .REPORTED ∧ incCaseA.severity = .MEDIUM ∧
    checkForDuplicate near cosB defaultEnv stCaseA.db "FIRE" 40.0005 (-75.0005) 60000 =
      { isDuplicate := true, duplicateOf := some "A", reason := some (dupReason defaultEnv) } ∧
    createIncident near cosB defaultEnv dataB none "B" 60000 stCaseA =
      (.ok incCaseB, stCaseB) ∧
    incCaseB.status = .FLAGGED ∧
    incCaseB.description = dupMarker ++ dataB.description := by
  have hcond : dupFilter "FIRE" 40.0005 (-75.0005)
      (60000 - defaultEnv.DUPLICATE_TIME_MINUTES * 60 * 1000)
      (defaultEnv.DUPLICATE_DISTANCE_METERS / 111000)
      (defaultEnv.DUPLICATE_DISTANCE_METERS / 111000 / cosB) incCaseA = true := by
    have hd0 : (0 : ℚ) ≤ 200 / 111000 / cosB :=
      div_nonneg (by norm_num) hcos0.le
    have hld : (1 / 2000 : ℚ) ≤ 200 / 111000 / cosB := by
      rw [le_div_iff hcos0]
      nlinarith
    unfold dupFilter incCaseA defaultEnv
    simp only [Bool.and_eq_true, decide_eq_true_eq]
    refine ⟨⟨⟨⟨⟨⟨⟨trivial, by norm_num⟩, by norm_num⟩, by norm_num⟩, by linarith⟩,
      by linarith⟩, by decide⟩, by decide⟩
  have hchk : checkForDuplicate near cosB defaultEnv stCaseA.db "FIRE"
      40.0005 (-75.0005) 60000 =
      { isDuplicate := true, duplicateOf := some "A",
        reason := some (dupReason defaultEnv) } := by
    show dupScanLoop near defaultEnv 40.0005 (-75.0005)
        ((sortDescBy (fun i => i.createdAt)
          (stCaseA.db.incidents.filter
            (dupFilter "FIRE" 40.0005 (-75.0005)
              (60000 - defaultEnv.DUPLICATE_TIME_MINUTES * 60 * 1000)
              (defaultEnv.DUPLICATE_DISTANCE_METERS / 111000)
              (defaultEnv.DUPLICATE_DISTANCE_METERS / 111000 / cosB)))).take 20) = _
    have hfl : stCaseA.db.incidents.filter
        (dupFilter "FIRE" 40.0005 (-75.0005)
          (60000 - defaultEnv.DUPLICATE_TIME_MINUTES * 60 * 1000)
          (defaultEnv.DUPLICATE_DISTANCE_METERS / 111000)
          (defaultEnv.DUPLICATE_DISTANCE_METERS / 111000 / cosB)) = [incCaseA] := by
      show List.filter _ [incCaseA] = [incCaseA]
      simp [List.filter_cons, hcond]
    rw [hfl]
    show dupScanLoop near defaultEnv 40.0005 (-75.0005) [incCaseA] = _
    unfold dupScanLoop
    rw [show (near 40.0005 (-75.0005) incCaseA.latitude incCaseA.longitude
        defaultEnv.DUPLICATE_DISTANCE_METERS) = true from hnear]
    rfl
  have hchk2 : checkForDuplicate near cosB defaultEnv stCaseA.db
      dataB.incidentType dataB.latitude dataB.longitude 60000 =
      ({ isDuplicate := true, duplicateOf := some "A", reason := some (dupReason defaultEnv) } : DupResult) := hchk
  refine ⟨rfl, rfl, rfl, hchk, ?_, rfl, rfl⟩
  unfold createIncident
  dsimp only
  rw [hchk2]
  rfl

/-- Witness for C6 with the distance predicate and cosine value
instantiated concretely. -/
theorem concrete_walkthrough_w :
    createIncident (fun _ _ _ _ _ => true) 1 defaultEnv dataA none "A" 0 stEmpty =
      (.ok incCaseA, stCaseA) ∧
    incCaseA.status = .REPORTED ∧ incCaseA.severity = .MEDIUM ∧
    checkForDuplicate (fun _ _ _ _ _ => true) 1 defaultEnv stCaseA.db "FIRE"
      40.0005 (-75.0005) 60000 =
      { isDuplicate := true, duplicateOf := some "A", reason := some (dupReason defaultEnv) } ∧
    createIncident (fun _ _ _ _ _ => true) 1 defaultEnv dataB none "B" 60000 stCaseA =
      (.ok incCaseB, stCaseB) ∧
    incCaseB.status = .FLAGGED ∧
    incCaseB.description = dupMarker ++ dataB.description :=
  concrete_walkthrough (fun _ _ _ _ _ => true) 1 1 rfl (by norm_num) (by norm_num)

/-! ## The real-number facts behind C6's hypotheses

These discharge, over the exact reals, the assumptions the parametrised
pipeline takes about the floating-point boundary at the walkthrough's
coordinates: the haversine distance between (40.0005, -75.0005) and
(40, -75) is within 200 m, and `cos(40.0005°)` lies in (0, 1]. -/

theorem arctan_le_self {x : ℝ} (hx : 0 ≤ x) : Real.arctan x ≤ x := by
  rcases eq_or_lt_of_le hx with h0 | h0
  · simp [← h0]
  · have hp : 0 < Real.arctan x := by
      have := Real.arctan_strictMono h0
      simpa [Real.arctan_zero] using this
    have h1 : Real.arctan x < Real.tan (Real.arctan x) :=
      Real.lt_tan hp (Real.arctan_lt_pi_div_two x)
    simpa [Real.tan_arctan] using h1.le

theorem cos_deg_nonneg {x : ℝ} (h0 : 0 ≤ x) (h90 : x ≤ 90) :
    0 ≤ Real.cos (toRadians x) := by
  have hπ3 : (3 : ℝ) < Real.pi := Real.pi_gt_three
  apply Real.cos_nonneg_of_mem_Icc
  constructor
  · unfold toRadians
    nlinarith
  · unfold toRadians
    nlinarith

set_option maxHeartbeats 2000000 in
/-- The haversine formula stays under 200 m whenever both coordinate
differences are at most 0.0005° and both cosines are nonnegative. -/
theorem calculateDistance_le_200 (lat1 lon1 lat2 lon2 : ℝ)
    (hlat : |lat2 - lat1| ≤ 0.0005) (hlon : |lon2 - lon1| ≤ 0.0005)
    (hc1 : 0 ≤ Real.cos (toRadians lat1)) (hc2 : 0 ≤ Real.cos (toRadians lat2)) :
    calculateDistance lat1 lon1 lat2 lon2 ≤ 200 := by
  have hπ3 : (3 : ℝ) < Real.pi := Real.pi_gt_three
  have hπ315 : Real.pi < 3.15 := Real.pi_lt_d2
  have key : ∀ a : ℝ, 0 ≤ a → a ≤ (0.00001 : ℝ) ^ 2 →
      EARTH_RADIUS_METERS * (2 * atan2fq (Real.sqrt a) (Real.sqrt (1 - a))) ≤ 200 := by
    intro a ha0 ha
    have h1a : (1 : ℝ) / 2 ≤ 1 - a := by nlinarith
    have hsq : (0.7 : ℝ) ≤ Real.sqrt (1 - a) := by
      rw [Real.le_sqrt (by norm_num) (by linarith)]
      nlinarith
    have hne : Real.sqrt (1 - a) ≠ 0 :=
      ne_of_gt (lt_of_lt_of_le (by norm_num) hsq)
    have hs : Real.sqrt a ≤ 0.00001 := by
      calc Real.sqrt a ≤ Real.sqrt ((0.00001 : ℝ) ^ 2) := Real.sqrt_le_sqrt ha
        _ = 0.00001 := Real.sqrt_sq (by norm_num)
    unfold atan2fq
    rw [if_neg hne]
    have hta : Real.arctan (Real.sqrt a / Real.sqrt (1 - a)) ≤
        Real.sqrt a / Real.sqrt (1 - a) :=
      arctan_le_self (div_nonneg (Real.sqrt_nonneg _) (Real.sqrt_nonneg _))
    have hdiv : Real.sqrt a / Real.sqrt (1 - a) ≤ 0.00001 / 0.7 :=
      div_le_div (by norm_num) hs (by norm_num) hsq
    unfold EARTH_RADIUS_METERS
    nlinarith
  unfold calculateDistance
  dsimp only
  apply key
  · nlinarith [mul_nonneg hc1 hc2,
      mul_self_nonneg (Real.sin (toRadians (lat2 - lat1) / 2)),
      mul_self_nonneg (Real.sin (toRadians (lon2 - lon1) / 2))]
  · have hlat' := abs_le.mp hlat
    have hlon' := abs_le.mp hlon
    have s1 : Real.sin (toRadians (lat2 - lat1) / 2) *
        Real.sin (toRadians (lat2 - lat1) / 2) ≤
        (toRadians (lat2 - lat1) / 2) * (toRadians (lat2 - lat1) / 2) := by
      nlinarith [Real.sin_sq_le_sq (x := toRadians (lat2 - lat1) / 2)]
    have s2 : Real.sin (toRadians (lon2 - lon1) / 2) *
        Real.sin (toRadians (lon2 - lon1) / 2) ≤
        (toRadians (lon2 - lon1) / 2) * (toRadians (lon2 - lon1) / 2) := by
      nlinarith [Real.sin_sq_le_sq (x := toRadians (lon2 - lon1) / 2)]
    have t1 : (toRadians (lat2 - lat1) / 2) * (toRadians (lat2 - lat1) / 2) ≤
        (0.0005 * (3.15 / 180) / 2) ^ 2 := by
      unfold toRadians
      nlinarith [mul_nonneg (by linarith : (0:ℝ) ≤ 0.0005 - (lat2 - lat1)) (by linarith : (0:ℝ) ≤ Real.pi),
        mul_nonneg (by linarith : (0:ℝ) ≤ (lat2 - lat1) + 0.0005) (by linarith : (0:ℝ) ≤ Real.pi),
        mul_nonneg (by linarith : (0:ℝ) ≤ 0.0005 - (lat2 - lat1)) (by linarith : (0:ℝ) ≤ 3.15 - Real.pi),
        mul_nonneg (by linarith : (0:ℝ) ≤ (lat2 - lat1) + 0.0005) (by linarith : (0:ℝ) ≤ 3.15 - Real.pi)]
    have t2 : (toRadians (lon2 - lon1) / 2) * (toRadians (lon2 - lon1) / 2) ≤
        (0.0005 * (3.15 / 180) / 2) ^ 2 := by
      unfold toRadians
      nlinarith [mul_nonneg (by linarith : (0:ℝ) ≤ 0.0005 - (lon2 - lon1)) (by linarith : (0:ℝ) ≤ Real.pi),
        mul_nonneg (by linarith : (0:ℝ) ≤ (lon2 - lon1) + 0.0005) (by linarith : (0:ℝ) ≤ Real.pi),
        mul_nonneg (by linarith : (0:ℝ) ≤ 0.0005 - (lon2 - lon1)) (by linarith : (0:ℝ) ≤ 3.15 - Real.pi),
        mul_nonneg (by linarith : (0:ℝ) ≤ (lon2 - lon1) + 0.0005) (by linarith : (0:ℝ) ≤ 3.15 - Real.pi)]
    have c12 : Real.cos (toRadians lat1) * Real.cos (toRadians lat2) ≤ 1 :=
      mul_le_one (Real.cos_le_one _) hc2 (Real.cos_le_one _)
    have c120 : 0 ≤ Real.cos (toRadians lat1) * Real.cos (toRadians lat2) :=
      mul_nonneg hc1 hc2
    have hcs : Real.cos (toRadians lat1) * Real.cos (toRadians lat2) *
        Real.sin (toRadians (lon2 - lon1) / 2) * Real.sin (toRadians (lon2 - lon1) / 2) ≤
        Real.sin (toRadians (lon2 - lon1) / 2) * Real.sin (toRadians (lon2 - lon1) / 2) := by
      nlinarith [c12, c120, mul_self_nonneg (Real.sin (toRadians (lon2 - lon1) / 2))]
    linarith [s1, s2, t1, t2, hcs]

/-- The walkthrough's two report locations are within 200 m for the real
haversine distance. -/
theorem within200_at_walkthrough :
    calculateDistance 40.0005 (-75.0005) 40 (-75) ≤ 200 :=
  calculateDistance_le_200 40.0005 (-75.0005) 40 (-75)
    (by rw [abs_le]; constructor <;> norm_num)
    (by rw [abs_le]; constructor <;> norm_num)
    (cos_deg_nonneg (by norm_num) (by norm_num))
    (cos_deg_nonneg (by norm_num) (by norm_num))

/-- `cos(40.0005°)` is in (0, 1]: the bounds C6 assumes of the cosine value
the detector is given. -/
theorem cos_walkthrough_mem :
    0 < Real.cos (toRadians 40.0005) ∧ Real.cos (toRadians 40.0005) ≤ 1 := by
  have hπ3 : (3 : ℝ) < Real.pi := Real.pi_gt_three
  constructor
  · apply Real.cos_pos_of_mem_Ioo
    constructor
    · unfold toRadians
      nlinarith
    · unfold toRadians
      nlinarith
  · exact Real.cos_le_one _

end SentinelLink
